import Mathlib

set_option maxHeartbeats 1000000

/-! Shallow embedding of `upload_capture/capture_emotions.py`: the frame
splitter `split_data` (lines 191-197), the message decoder
(`simplejson.loads` restricted to the device wire format), the correlation
loop `EegData.populate_from_data` (lines 99-140), and the TSV line
formatting of `EegData.print_power_levels_tsv` (line 97). -/

/-- JSON values as they occur on the Synapse wire format: numbers and
objects (the device protocol uses no strings, arrays, booleans or null as
values, so the decoder covers exactly this subset). A number literal with
`e` fraction digits and digit string worth `n` denotes the exact decimal
`n / 10 ^ e`; `simplejson` parses `1.0` to a float equal to the integer
`1`, which the numeric equality `numBEq` below reflects. -/
inductive JVal : Type where
  | num (n : Int) (e : Nat)
  | obj (fields : List (String × JVal))

/-- Numeric equality of two exact decimals `n1 / 10 ^ e1` and
`n2 / 10 ^ e2`, as Python `==` compares the parsed numbers. -/
def numBEq (n1 : Int) (e1 : Nat) (n2 : Int) (e2 : Nat) : Bool :=
  n1 * (10 : Int) ^ e2 == n2 * (10 : Int) ^ e1

mutual

/-- Python `==` on decoded JSON values, as the timestamp assertion uses
it: numeric equality on numbers, field-wise equality on objects (the
protocol never compares objects, so field order sensitivity is moot),
`False` across kinds. -/
def jvalBEq : JVal → JVal → Bool
  | JVal.num n1 e1, JVal.num n2 e2 => numBEq n1 e1 n2 e2
  | JVal.obj fa, JVal.obj fb => fieldsBEq fa fb
  | _, _ => false

/-- Field-list equality component of `jvalBEq`. -/
def fieldsBEq : List (String × JVal) → List (String × JVal) → Bool
  | [], [] => true
  | (k1, v1) :: t1, (k2, v2) :: t2 =>
    k1 == k2 && jvalBEq v1 v2 && fieldsBEq t1 t2
  | _, _ => false

end

/-- Lookup of a key in a decoded JSON object's field list; the last binding
wins, as in a Python dict built by a JSON parser. -/
def dictGet : List (String × JVal) → String → Option JVal
  | [], _ => none
  | (k, v) :: rest, key =>
    match dictGet rest key with
    | some w => some w
    | none => if k = key then some v else none

/-- Exceptions that `EegData.populate_from_data` can raise, as distinct
error values: `decodeError` is the `simplejson` decode failure (the spec's
`DecodeError`), `keyError` a missing dict key, `typeError` an `in` test or
subscript applied to a non-dict, and `correlationError` the
`AssertionError` raised by the timestamp assertion at lines 121-124, the
error kind the spec names `CorrelationError`. -/
inductive PyErr : Type where
  | decodeError
  | keyError
  | typeError
  | correlationError
deriving DecidableEq

/-- Python `key in message` on a decoded JSON value: a membership test on a
dict, a `TypeError` on anything else. -/
def pyIn (key : String) (v : JVal) : Except PyErr Bool :=
  match v with
  | JVal.obj fields => Except.ok (dictGet fields key).isSome
  | _ => Except.error PyErr.typeError

/-- Python `message[key]`: subscripting a dict (a `KeyError` when the key
is absent), a `TypeError` on a non-dict. -/
def pyGet (v : JVal) (key : String) : Except PyErr JVal :=
  match v with
  | JVal.obj fields =>
    match dictGet fields key with
    | some w => Except.ok w
    | none => Except.error PyErr.keyError
  | _ => Except.error PyErr.typeError

/-- Two chained subscripts `v[k1][k2]`. -/
def pyGet2 (v : JVal) (k1 k2 : String) : Except PyErr JVal :=
  match pyGet v k1 with
  | Except.ok w => pyGet w k2
  | Except.error e => Except.error e

/-- Python truthiness of a decoded JSON value: a number is truthy iff
nonzero, a dict iff nonempty. -/
def pyTruthyV (v : JVal) : Bool :=
  match v with
  | JVal.num n _ => decide (n ≠ 0)
  | JVal.obj fields => !fields.isEmpty

/-- Reads a decimal digit string as a natural number. -/
def natOfDigits (ds : List Char) : Nat :=
  ds.foldl (fun a c => a * 10 + (c.toNat - 48)) 0

/-- Parses a JSON number (optional minus sign, digits, optional fraction),
returning its exact decimal value as a mantissa and fraction-digit count,
together with the unconsumed input. -/
def parseNumber (cs : List Char) : Option ((Int × Nat) × List Char) :=
  let (neg, cs1) :=
    match cs with
    | '-' :: t => (true, t)
    | _ => (false, cs)
  let ds := cs1.takeWhile Char.isDigit
  let cs2 := cs1.dropWhile Char.isDigit
  if ds.isEmpty then none
  else
    let signed : Int → Int := fun n => if neg then -n else n
    match cs2 with
    | '.' :: cs3 =>
      let fs := cs3.takeWhile Char.isDigit
      let cs4 := cs3.dropWhile Char.isDigit
      if fs.isEmpty then none
      else
        some ((signed ((natOfDigits ds * 10 ^ fs.length + natOfDigits fs : Nat) : Int),
               fs.length), cs4)
    | _ => some ((signed (natOfDigits ds : Int), 0), cs2)

/-- Parses a JSON string literal (no escape sequences occur in the wire
format), returning the key text and the unconsumed input. -/
def parseKeyString : List Char → Option (String × List Char)
  | '\"' :: rest =>
    let ks := rest.takeWhile (fun c => c ≠ '\"')
    match rest.dropWhile (fun c => c ≠ '\"') with
    | '\"' :: rest2 => some (String.mk ks, rest2)
    | _ => none
  | _ => none

mutual

/-- Parses one JSON value (object or number) from the input; the fuel
argument bounds the recursion depth and is chosen large enough in `loads`. -/
def parseValue : Nat → List Char → Option (JVal × List Char)
  | 0, _ => none
  | _ + 1, [] => none
  | f + 1, c :: rest =>
    if c = '\x7b' then
      match rest with
      | '\x7d' :: rest2 => some (JVal.obj [], rest2)
      | _ =>
        match parseMembers f rest with
        | some (fields, '\x7d' :: rest2) => some (JVal.obj fields, rest2)
        | _ => none
    else
      match parseNumber (c :: rest) with
      | some ((n, e), rest2) => some (JVal.num n e, rest2)
      | none => none

/-- Parses a nonempty comma-separated list of string-key/value members. -/
def parseMembers : Nat → List Char → Option (List (String × JVal) × List Char)
  | 0, _ => none
  | f + 1, cs =>
    match parseKeyString cs with
    | none => none
    | some (key, cs1) =>
      match cs1 with
      | ':' :: cs2 =>
        match parseValue f cs2 with
        | none => none
        | some (v, cs3) =>
          match cs3 with
          | ',' :: cs4 =>
            match parseMembers f cs4 with
            | none => none
            | some (fields, cs5) => some ((key, v) :: fields, cs5)
          | _ => some ([(key, v)], cs3)
      | _ => none

end

/-- Models `simplejson.loads` on one frame, restricted to the device wire
format (objects with string keys and number or object values, no
whitespace): `some` is a successful parse of the whole frame, `none` a
`simplejson` decode error. -/
def loads (cs : List Char) : Option JVal :=
  match parseValue (cs.length + 1) cs with
  | some (v, []) => some v
  | _ => none

/-- One row of `EegData.power_levels`: the ten-element tuple appended by
`EegData.add_power_levels` (lines 79-85). -/
structure PowerLevelsRow : Type where
  timestamp : JVal
  poorSignalLevel : JVal
  lowAlpha : JVal
  highAlpha : JVal
  lowBeta : JVal
  highBeta : JVal
  lowGamma : JVal
  highGamma : JVal
  attention : JVal
  meditation : JVal

/-- The two accumulating sequences of the `EegData` object (lines 64-66). -/
structure EegData : Type where
  raw_eeg : List (JVal × JVal)
  power_levels : List PowerLevelsRow

/-- `EegData.add_raw_eeg` (lines 68-70): append a `(timestamp, level)`
pair. -/
def add_raw_eeg (d : EegData) (timestamp level : JVal) : EegData :=
  { d with raw_eeg := d.raw_eeg ++ [(timestamp, level)] }

/-- `EegData.add_power_levels` (lines 79-85): append one ten-field row. -/
def add_power_levels (d : EegData) (timestamp poorSignalLevel lowAlpha
    highAlpha lowBeta highBeta lowGamma highGamma att med : JVal) : EegData :=
  { d with power_levels := d.power_levels ++
      [⟨timestamp, poorSignalLevel, lowAlpha, highAlpha, lowBeta, highBeta,
        lowGamma, highGamma, att, med⟩] }

/-- The state of the loop in `EegData.populate_from_data`: the `EegData`
object being mutated and the three local correlation slots `poorSigLev`,
`eegPow`, `attention` (lines 101-103), each `None` or one buffered
message. -/
structure LoopState : Type where
  data : EegData
  poorSigLev : Option JVal
  eegPow : Option JVal
  attention : Option JVal

/-- Lines 106-107: the `rawEeg` branch of the loop body, appending
`(message[timestamp], message[rawEeg])` with Python's left-to-right
argument evaluation. -/
def tryRaw (st : LoopState) (message : JVal) : Except PyErr LoopState :=
  match pyIn "rawEeg" message with
  | Except.error e => Except.error e
  | Except.ok false => Except.ok st
  | Except.ok true =>
    match pyGet message "timestamp" with
    | Except.error e => Except.error e
    | Except.ok t =>
      match pyGet message "rawEeg" with
      | Except.error e => Except.error e
      | Except.ok v => Except.ok { st with data := add_raw_eeg st.data t v }

/-- Lines 108-109: the `poorSignalLevel` branch; the whole message is
stored in the `poorSigLev` slot, overwriting any previous occupant. -/
def trySignalQuality (st : LoopState) (message : JVal) : Except PyErr LoopState :=
  match pyIn "poorSignalLevel" message with
  | Except.error e => Except.error e
  | Except.ok true => Except.ok { st with poorSigLev := some message }
  | Except.ok false => Except.ok st

/-- Lines 110-111: the `eegPower` branch; the whole message is stored in
the `eegPow` slot, overwriting any previous occupant. -/
def tryPowerBands (st : LoopState) (message : JVal) : Except PyErr LoopState :=
  match pyIn "eegPower" message with
  | Except.error e => Except.error e
  | Except.ok true => Except.ok { st with eegPow := some message }
  | Except.ok false => Except.ok st

/-- Lines 125-134: the `add_power_levels` call with its ten arguments
evaluated left to right, each a dict subscript chain. -/
def addRow (st : LoopState) (psl ep att message e_sense : JVal) : Except PyErr LoopState :=
  match pyGet message "timestamp" with
  | Except.error e => Except.error e
  | Except.ok ts =>
    match pyGet psl "poorSignalLevel" with
    | Except.error e => Except.error e
    | Except.ok p =>
      match pyGet2 ep "eegPower" "lowAlpha" with
      | Except.error e => Except.error e
      | Except.ok la =>
        match pyGet2 ep "eegPower" "highAlpha" with
        | Except.error e => Except.error e
        | Except.ok ha =>
          match pyGet2 ep "eegPower" "lowBeta" with
          | Except.error e => Except.error e
          | Except.ok lb =>
            match pyGet2 ep "eegPower" "highBeta" with
            | Except.error e => Except.error e
            | Except.ok hb =>
              match pyGet2 ep "eegPower" "lowGamma" with
              | Except.error e => Except.error e
              | Except.ok lg =>
                match pyGet2 ep "eegPower" "highGamma" with
                | Except.error e => Except.error e
                | Except.ok hg =>
                  match pyGet2 att "eSense" "attention" with
                  | Except.error e => Except.error e
                  | Except.ok av =>
                    match pyGet e_sense "meditation" with
                    | Except.error e => Except.error e
                    | Except.ok mv =>
                      Except.ok { st with data :=
                        (add_power_levels st.data ts p la ha lb hb lg hg av mv) }

/-- Lines 121-134: the chained timestamp assertion (Python evaluates the
chain left to right with short-circuit; values are compared with `==`,
which on the protocol's numeric timestamps is exact numeric equality)
followed by the `add_power_levels` call. A failing comparison raises the
`AssertionError` modelled by `PyErr.correlationError`. -/
def checkAndAdd (st : LoopState) (psl ep att message e_sense : JVal) : Except PyErr LoopState :=
  match pyGet psl "timestamp" with
  | Except.error e => Except.error e
  | Except.ok t1 =>
    match pyGet ep "timestamp" with
    | Except.error e => Except.error e
    | Except.ok t2 =>
      if jvalBEq t1 t2 then
        match pyGet att "timestamp" with
        | Except.error e => Except.error e
        | Except.ok t3 =>
          if jvalBEq t2 t3 then
            match pyGet message "timestamp" with
            | Except.error e => Except.error e
            | Except.ok t4 =>
              if jvalBEq t3 t4 then addRow st psl ep att message e_sense
              else Except.error PyErr.correlationError
          else Except.error PyErr.correlationError
      else Except.error PyErr.correlationError

/-- Line 119: the `if poorSigLev and eegPow and attention:` guard (Python
truthiness with short-circuit; an empty slot is `None`, hence falsy)
around the assertion and the append. -/
def completeGroup (st : LoopState) (message e_sense : JVal) : Except PyErr LoopState :=
  match st.poorSigLev, st.eegPow, st.attention with
  | some psl, some ep, some att =>
    if pyTruthyV psl && pyTruthyV ep && pyTruthyV att then
      checkAndAdd st psl ep att message e_sense
    else Except.ok st
  | _, _, _ => Except.ok st

/-- Lines 112-140: the `eSense` branch. An `attention` key stores the
whole message in the `attention` slot; otherwise (`elif`, line 117) a
`meditation` key triggers the group-completion check and, when no
exception escapes it, the unconditional reset of the three slots
(lines 138-140). -/
def tryESense (st : LoopState) (message : JVal) : Except PyErr LoopState :=
  match pyIn "eSense" message with
  | Except.error e => Except.error e
  | Except.ok false => Except.ok st
  | Except.ok true =>
    match pyGet message "eSense" with
    | Except.error e => Except.error e
    | Except.ok e_sense =>
      match pyIn "attention" e_sense with
      | Except.error e => Except.error e
      | Except.ok true => Except.ok { st with attention := some message }
      | Except.ok false =>
        match pyIn "meditation" e_sense with
        | Except.error e => Except.error e
        | Except.ok false => Except.ok st
        | Except.ok true =>
          match completeGroup st message e_sense with
          | Except.error e => Except.error e
          | Except.ok st2 =>
            Except.ok { st2 with poorSigLev := none, eegPow := none, attention := none }

/-- Lines 104-140: one iteration of the loop body of
`populate_from_data` on one line: decode the line (a decode failure
raises), then run the four key branches in source order. -/
def processLine (st : LoopState) (line : List Char) : Except PyErr LoopState :=
  match loads line with
  | none => Except.error PyErr.decodeError
  | some message =>
    match tryRaw st message with
    | Except.error e => Except.error e
    | Except.ok st1 =>
      match trySignalQuality st1 message with
      | Except.error e => Except.error e
      | Except.ok st2 =>
        match tryPowerBands st2 message with
        | Except.error e => Except.error e
        | Except.ok st3 => tryESense st3 message

/-- The loop of `populate_from_data` with Python exception propagation:
the result is the final state and, when some line raised, the error paired
with the suffix of lines starting at the raising line (none of which were
processed); the state returned alongside an error is the state at the
moment the exception was raised. -/
def runLines (st : LoopState) : List (List Char) → LoopState × Option (PyErr × List (List Char))
  | [] => (st, none)
  | l :: ls =>
    match processLine st l with
    | Except.ok st2 => runLines st2 ls
    | Except.error e => (st, some (e, l :: ls))

/-- The state at entry of `populate_from_data`: fresh `EegData` (line 64)
and the three slots initialised to `None` (lines 101-103). -/
def initState : LoopState :=
  { data := { raw_eeg := [], power_levels := [] },
    poorSigLev := none, eegPow := none, attention := none }

/-- `EegData.populate_from_data` (lines 99-140) on a fresh `EegData`
object, with exception propagation as in `runLines`. -/
def populate_from_data (lines : List (List Char)) : LoopState × Option (PyErr × List (List Char)) :=
  runLines initState lines

/-- The raw-amplitude facet a decoded message contributes: the pair
appended by the `rawEeg` branch when the message carries the key and both
lookups succeed. -/
def rawFacetOfMsg (m : JVal) : List (JVal × JVal) :=
  match pyIn "rawEeg" m with
  | Except.ok true =>
    match pyGet m "timestamp", pyGet m "rawEeg" with
    | Except.ok t, Except.ok v => [(t, v)]
    | _, _ => []
  | _ => []

/-- The raw-amplitude facet a frame contributes: the pair appended by the
`rawEeg` branch when the frame decodes, carries the key, and both lookups
succeed. -/
def rawFacet (line : List Char) : List (JVal × JVal) :=
  match loads line with
  | none => []
  | some m => rawFacetOfMsg m

/-- The arrival-ordered sequence of raw-amplitude facets of a line list. -/
def rawProjection (lines : List (List Char)) : List (JVal × JVal) :=
  (lines.map rawFacet).flatten

/-- Python `str.split` with a one-character separator: always returns at
least one fragment, splitting at every occurrence of the separator. -/
def pySplit (sep : Char) : List Char → List (List Char)
  | [] => [[]]
  | c :: cs =>
    if c = sep then [] :: pySplit sep cs
    else
      match pySplit sep cs with
      | h :: t => (c :: h) :: t
      | [] => [[c]]

/-- Whitespace characters removed by Python's `str.strip()` (the ASCII
ones; the record-closing brace is not among them, which is all this
development relies on). -/
def isPySpace (c : Char) : Bool :=
  c = ' ' || c = '\t' || c = '\n' || c = '\r' || c = '\x0b' || c = '\x0c'

/-- Python `str.strip()`: remove leading and trailing whitespace. -/
def pyStrip (l : List Char) : List Char :=
  ((l.dropWhile isPySpace).reverse.dropWhile isPySpace).reverse

/-- Python `fragment.endswith('\x7d')`: nonempty and the last character is
the closing brace. -/
def endsWithRBrace (l : List Char) : Bool :=
  match l.getLast? with
  | some c => c = '\x7d'
  | none => false

/-- Python `splitted[-1]` (total here because `pySplit` never returns an
empty list). -/
def lastFrag (ls : List (List Char)) : List Char := ls.getLastD []

/-- The condition `splitted[-1].strip == ''` at line 195 exactly as the
source writes it: `strip` is not called, so the left-hand side is a bound
method object, and comparing it with the empty string is always `False`
in Python. -/
def stripAttrEqEmptyStr (_ : List Char) : Bool := false

/-- Lines 191-197, `split_data`: split on the carriage-return delimiter
and drop the last fragment when line 195's condition holds. -/
def split_data (output : List Char) : List (List Char) :=
  let splitted := pySplit '\r' output
  if stripAttrEqEmptyStr (lastFrag splitted) || !endsWithRBrace (lastFrag splitted) then
    splitted.dropLast
  else splitted

/-- The splitter as the spec words it: discard the last fragment when its
trimmed content is the empty string or it does not end with the
record-closing brace; all other fragments are returned as-is. -/
def split_data_spec (output : List Char) : List (List Char) :=
  let splitted := pySplit '\r' output
  if (pyStrip (lastFrag splitted)).isEmpty || !endsWithRBrace (lastFrag splitted) then
    splitted.dropLast
  else splitted

/-- The simplified reference splitter: drop the final fragment exactly
when it does not end with the record-closing brace. -/
def split_data_ref (output : List Char) : List (List Char) :=
  let splitted := pySplit '\r' output
  if !endsWithRBrace (lastFrag splitted) then splitted.dropLast else splitted

/-- Left-pads a digit string with zeros to the given width. -/
def padZeros (w : Nat) (s : String) : String :=
  String.mk (List.replicate (w - s.length) '0') ++ s

/-- Fixed six-decimal rendering of the exact decimal `n / 10 ^ e`,
modelling Python's `"%.6f"` on the nonnegative values the protocol
produces (it agrees with Python whenever the value is an exact multiple
of ten to the minus six, the only case exercised here). -/
def formatFixed6 (n : Int) (e : Nat) : String :=
  let m : Int := n * (10 : Int) ^ 6 / (10 : Int) ^ e
  toString (m / 1000000) ++ "." ++ padZeros 6 (toString ((m % 1000000).toNat))

/-- Python `"%d"` applied to the protocol's numeric fields (integral
nonnegative values): truncation of `n / 10 ^ e`. -/
def formatInt (n : Int) (e : Nat) : String := toString (n / (10 : Int) ^ e)

/-- Numeric payload of a JSON value, `none` on a dict (where Python's `%`
formatting would raise a `TypeError`). -/
def asNum (v : JVal) : Option (Int × Nat) :=
  match v with
  | JVal.num n e => some (n, e)
  | JVal.obj _ => none

/-- One body line written by `EegData.print_power_levels_tsv` (line 97):
the `%` template with one six-decimal float and nine integers, tab
separated, applied to one stored row. -/
def power_levels_line (r : PowerLevelsRow) : Option String :=
  match asNum r.timestamp, asNum r.poorSignalLevel, asNum r.lowAlpha,
        asNum r.highAlpha, asNum r.lowBeta, asNum r.highBeta,
        asNum r.lowGamma, asNum r.highGamma, asNum r.attention,
        asNum r.meditation with
  | some (t, te), some (p, pe), some (la, lae), some (ha, hae),
      some (lb, lbe), some (hb, hbe), some (lg, lge), some (hg, hge),
      some (av, ave), some (mv, mve) =>
    some (formatFixed6 t te ++ "\t" ++ formatInt p pe ++ "\t" ++
      formatInt la lae ++ "\t" ++ formatInt ha hae ++ "\t" ++
      formatInt lb lbe ++ "\t" ++ formatInt hb hbe ++ "\t" ++
      formatInt lg lge ++ "\t" ++ formatInt hg hge ++ "\t" ++
      formatInt av ave ++ "\t" ++ formatInt mv mve)
  | _, _, _, _, _, _, _, _, _, _ => none

/-- The body lines of the power-levels TSV file, in stored order. -/
def power_levels_tsv_body (d : EegData) : Option (List String) :=
  d.power_levels.mapM power_levels_line

/-- The signal-quality frame of the spec's example scenario. -/
def frameSq : List Char :=
  "\x7b\"poorSignalLevel\":0,\"timestamp\":1.0\x7d".toList

/-- The power-bands frame of the spec's example scenario. -/
def framePb : List Char :=
  "\x7b\"eegPower\":\x7b\"lowAlpha\":10,\"highAlpha\":20,\"lowBeta\":30,\"highBeta\":40,\"lowGamma\":50,\"highGamma\":60\x7d,\"timestamp\":1.0\x7d".toList

/-- The attention frame of the spec's example scenario. -/
def frameAtt : List Char :=
  "\x7b\"eSense\":\x7b\"attention\":55\x7d,\"timestamp\":1.0\x7d".toList

/-- The meditation frame of the spec's example scenario. -/
def frameMed : List Char :=
  "\x7b\"eSense\":\x7b\"meditation\":65\x7d,\"timestamp\":1.0\x7d".toList

/-- A meditation frame whose timestamp differs from the example group's. -/
def frameMedLate : List Char :=
  "\x7b\"eSense\":\x7b\"meditation\":65\x7d,\"timestamp\":2.0\x7d".toList

/-- A frame whose eSense payload carries both an attention and a
meditation key. -/
def frameDual : List Char :=
  "\x7b\"eSense\":\x7b\"attention\":55,\"meditation\":65\x7d,\"timestamp\":1.0\x7d".toList

/-- A raw-amplitude frame. -/
def frameRaw : List Char :=
  "\x7b\"rawEeg\":7,\"timestamp\":1.5\x7d".toList

/-- A second raw-amplitude frame. -/
def frameRaw2 : List Char :=
  "\x7b\"rawEeg\":9,\"timestamp\":1.6\x7d".toList

/-- A frame that is not well-formed JSON. -/
def frameBad : List Char := "garbage".toList

/-- Whether a decoded frame's top-level fields would fire the meditation
trigger (line 117): an `eSense` object with no `attention` key and a
`meditation` key. -/
def medTriggerB (fs : List (String × JVal)) : Bool :=
  match dictGet fs "eSense" with
  | some (JVal.obj es) => (dictGet es "attention").isNone && (dictGet es "meditation").isSome
  | _ => false

/-- The decoded example signal-quality message. -/
def msgSq : JVal :=
  JVal.obj [("poorSignalLevel", JVal.num 0 0), ("timestamp", JVal.num 10 1)]

/-- The decoded example power-bands payload. -/
def msgPbBands : JVal :=
  JVal.obj [("lowAlpha", JVal.num 10 0), ("highAlpha", JVal.num 20 0),
            ("lowBeta", JVal.num 30 0), ("highBeta", JVal.num 40 0),
            ("lowGamma", JVal.num 50 0), ("highGamma", JVal.num 60 0)]

/-- The decoded example power-bands message. -/
def msgPb : JVal :=
  JVal.obj [("eegPower", msgPbBands), ("timestamp", JVal.num 10 1)]

/-- The decoded example attention message. -/
def msgAtt : JVal :=
  JVal.obj [("eSense", JVal.obj [("attention", JVal.num 55 0)]), ("timestamp", JVal.num 10 1)]

/-- The decoded dual attention-and-meditation message. -/
def msgDual : JVal :=
  JVal.obj [("eSense", JVal.obj [("attention", JVal.num 55 0), ("meditation", JVal.num 65 0)]),
            ("timestamp", JVal.num 10 1)]

/-- The loop state after the three example buffering frames: all three
slots occupied, nothing emitted yet. -/
def stFull : LoopState :=
  { data := { raw_eeg := [], power_levels := [] },
    poorSigLev := some msgSq, eegPow := some msgPb, attention := some msgAtt }

/-- The power-band record assembled from the example scenario. -/
def exampleRow : PowerLevelsRow :=
  ⟨JVal.num 10 1, JVal.num 0 0, JVal.num 10 0, JVal.num 20 0, JVal.num 30 0,
   JVal.num 40 0, JVal.num 50 0, JVal.num 60 0, JVal.num 55 0, JVal.num 65 0⟩

/-- The loop state after the full example group: one record stored, all
slots reset. -/
def stAfterMed : LoopState :=
  { data := { raw_eeg := [], power_levels := [exampleRow] },
    poorSigLev := none, eegPow := none, attention := none }

/-- The loop state after processing only the signal-quality frame. -/
def stSqOnly : LoopState :=
  { data := { raw_eeg := [], power_levels := [] },
    poorSigLev := some msgSq, eegPow := none, attention := none }

/-- A second signal-quality frame with different payload, for overwrite
scenarios. -/
def frameSq2 : List Char :=
  "\x7b\"poorSignalLevel\":3,\"timestamp\":4.0\x7d".toList

/-- The decoded second signal-quality message. -/
def msgSq2 : JVal :=
  JVal.obj [("poorSignalLevel", JVal.num 3 0), ("timestamp", JVal.num 40 1)]

/-- A second power-bands frame with different payload. -/
def framePb2 : List Char :=
  "\x7b\"eegPower\":\x7b\"lowAlpha\":11,\"highAlpha\":21,\"lowBeta\":31,\"highBeta\":41,\"lowGamma\":51,\"highGamma\":61\x7d,\"timestamp\":4.0\x7d".toList

/-- The decoded second power-bands message. -/
def msgPb2 : JVal :=
  JVal.obj [("eegPower",
    JVal.obj [("lowAlpha", JVal.num 11 0), ("highAlpha", JVal.num 21 0),
              ("lowBeta", JVal.num 31 0), ("highBeta", JVal.num 41 0),
              ("lowGamma", JVal.num 51 0), ("highGamma", JVal.num 61 0)]),
    ("timestamp", JVal.num 40 1)]

/-- A second attention frame with different payload. -/
def frameAtt2 : List Char :=
  "\x7b\"eSense\":\x7b\"attention\":56\x7d,\"timestamp\":4.0\x7d".toList

/-- The decoded second attention message. -/
def msgAtt2 : JVal :=
  JVal.obj [("eSense", JVal.obj [("attention", JVal.num 56 0)]), ("timestamp", JVal.num 40 1)]

/-- The loop state after two raw frames interleaved with the example
group. -/
def stC6 : LoopState :=
  { data := { raw_eeg := [(JVal.num 15 1, JVal.num 7 0), (JVal.num 16 1, JVal.num 9 0)],
              power_levels := [exampleRow] },
    poorSigLev := none, eegPow := none, attention := none }

/-! Helper lemmas -/

theorem except_ok_bindlike {α : Type} (a b : α) (h : (Except.ok a : Except PyErr α) = Except.ok b) : a = b := by
  cases h; rfl

mutual

theorem jvalBEq_refl : ∀ v : JVal, jvalBEq v v = true
  | JVal.num n e => by simp [jvalBEq, numBEq]
  | JVal.obj fs => by simp [jvalBEq, fieldsBEq_refl fs]

theorem fieldsBEq_refl : ∀ fs : List (String × JVal), fieldsBEq fs fs = true
  | [] => by simp [fieldsBEq]
  | (k, v) :: t => by simp [fieldsBEq, jvalBEq_refl v, fieldsBEq_refl t]

end

theorem dictGet_isEmpty_false {fs : List (String × JVal)} {k : String} {v : JVal}
    (h : dictGet fs k = some v) : fs.isEmpty = false := by
  cases fs with
  | nil => simp [dictGet] at h
  | cons a t => simp [List.isEmpty]

theorem pyTruthyV_of_dictGet {fs : List (String × JVal)} {k : String} {v : JVal}
    (h : dictGet fs k = some v) : pyTruthyV (JVal.obj fs) = true := by
  simp [pyTruthyV, dictGet_isEmpty_false h]

theorem tryRaw_absent {st : LoopState} {fs : List (String × JVal)}
    (h : dictGet fs "rawEeg" = none) :
    tryRaw st (JVal.obj fs) = Except.ok st := by
  simp [tryRaw, pyIn, h]

theorem tryRaw_present {st : LoopState} {fs : List (String × JVal)} {t v : JVal}
    (ht : dictGet fs "timestamp" = some t) (hv : dictGet fs "rawEeg" = some v) :
    tryRaw st (JVal.obj fs) = Except.ok { st with data := add_raw_eeg st.data t v } := by
  simp [tryRaw, pyIn, pyGet, ht, hv]

theorem trySignalQuality_absent {st : LoopState} {fs : List (String × JVal)}
    (h : dictGet fs "poorSignalLevel" = none) :
    trySignalQuality st (JVal.obj fs) = Except.ok st := by
  simp [trySignalQuality, pyIn, h]

theorem trySignalQuality_present {st : LoopState} {fs : List (String × JVal)} {v : JVal}
    (h : dictGet fs "poorSignalLevel" = some v) :
    trySignalQuality st (JVal.obj fs) = Except.ok { st with poorSigLev := some (JVal.obj fs) } := by
  simp [trySignalQuality, pyIn, h]

theorem tryPowerBands_absent {st : LoopState} {fs : List (String × JVal)}
    (h : dictGet fs "eegPower" = none) :
    tryPowerBands st (JVal.obj fs) = Except.ok st := by
  simp [tryPowerBands, pyIn, h]

theorem tryPowerBands_present {st : LoopState} {fs : List (String × JVal)} {v : JVal}
    (h : dictGet fs "eegPower" = some v) :
    tryPowerBands st (JVal.obj fs) = Except.ok { st with eegPow := some (JVal.obj fs) } := by
  simp [tryPowerBands, pyIn, h]

theorem tryESense_absent {st : LoopState} {fs : List (String × JVal)}
    (h : dictGet fs "eSense" = none) :
    tryESense st (JVal.obj fs) = Except.ok st := by
  simp [tryESense, pyIn, h]

theorem tryESense_attention {st : LoopState} {fs es : List (String × JVal)} {av : JVal}
    (hes : dictGet fs "eSense" = some (JVal.obj es))
    (hav : dictGet es "attention" = some av) :
    tryESense st (JVal.obj fs) = Except.ok { st with attention := some (JVal.obj fs) } := by
  simp [tryESense, pyIn, pyGet, hes, hav]

theorem tryESense_noMedKey {st : LoopState} {fs es : List (String × JVal)}
    (hes : dictGet fs "eSense" = some (JVal.obj es))
    (hav : dictGet es "attention" = none)
    (hmv : dictGet es "meditation" = none) :
    tryESense st (JVal.obj fs) = Except.ok st := by
  simp [tryESense, pyIn, pyGet, hes, hav, hmv]

theorem tryESense_med {st : LoopState} {fs es : List (String × JVal)} {mv : JVal}
    (hes : dictGet fs "eSense" = some (JVal.obj es))
    (hav : dictGet es "attention" = none)
    (hmv : dictGet es "meditation" = some mv) :
    tryESense st (JVal.obj fs) =
      (match completeGroup st (JVal.obj fs) (JVal.obj es) with
       | Except.error e => Except.error e
       | Except.ok st2 =>
         Except.ok { st2 with poorSigLev := none, eegPow := none, attention := none }) := by
  simp [tryESense, pyIn, pyGet, hes, hav, hmv]

theorem completeGroup_emptySlot {st : LoopState} {message e_sense : JVal}
    (h : st.poorSigLev = none ∨ st.eegPow = none ∨ st.attention = none) :
    completeGroup st message e_sense = Except.ok st := by
  unfold completeGroup
  rcases h with h | h | h <;> rw [h] <;>
    cases st.poorSigLev <;> cases st.eegPow <;> cases st.attention <;> simp

theorem completeGroup_full {st : LoopState} {psl ep att message e_sense : JVal}
    (h1 : st.poorSigLev = some psl) (h2 : st.eegPow = some ep)
    (h3 : st.attention = some att)
    (t1 : pyTruthyV psl = true) (t2 : pyTruthyV ep = true) (t3 : pyTruthyV att = true) :
    completeGroup st message e_sense = checkAndAdd st psl ep att message e_sense := by
  simp [completeGroup, h1, h2, h3, t1, t2, t3]

theorem addRow_state {st : LoopState} {psl ep att message e_sense : JVal} {st2 : LoopState}
    (h : addRow st psl ep att message e_sense = Except.ok st2) :
    st2.data.raw_eeg = st.data.raw_eeg ∧ st2.poorSigLev = st.poorSigLev ∧
      st2.eegPow = st.eegPow ∧ st2.attention = st.attention := by
  unfold addRow at h
  repeat' split at h
  all_goals first
  | (injection h with h; subst h; simp [add_power_levels])
  | injection h

theorem checkAndAdd_state {st : LoopState} {psl ep att message e_sense : JVal} {st2 : LoopState}
    (h : checkAndAdd st psl ep att message e_sense = Except.ok st2) :
    st2.data.raw_eeg = st.data.raw_eeg ∧ st2.poorSigLev = st.poorSigLev ∧
      st2.eegPow = st.eegPow ∧ st2.attention = st.attention := by
  unfold checkAndAdd at h
  repeat' split at h
  all_goals first
  | exact addRow_state h
  | simp_all

theorem completeGroup_state {st : LoopState} {message e_sense : JVal} {st2 : LoopState}
    (h : completeGroup st message e_sense = Except.ok st2) :
    st2.data.raw_eeg = st.data.raw_eeg ∧ st2.poorSigLev = st.poorSigLev ∧
      st2.eegPow = st.eegPow ∧ st2.attention = st.attention := by
  unfold completeGroup at h
  repeat' split at h
  all_goals first
  | exact checkAndAdd_state h
  | simp_all

theorem tryESense_data_raw {st : LoopState} {m : JVal} {st2 : LoopState}
    (h : tryESense st m = Except.ok st2) :
    st2.data.raw_eeg = st.data.raw_eeg := by
  unfold tryESense at h
  repeat' split at h
  all_goals first
  | (injection h with h; subst h; rfl)
  | (injection h with h; subst h
     rename_i heq
     simpa using (completeGroup_state heq).1)
  | injection h

theorem trySignalQuality_data {st : LoopState} {m : JVal} {st2 : LoopState}
    (h : trySignalQuality st m = Except.ok st2) :
    st2.data = st.data ∧ st2.eegPow = st.eegPow ∧ st2.attention = st.attention := by
  unfold trySignalQuality at h
  repeat' split at h
  all_goals first
  | (injection h with h; subst h; simp)
  | injection h

theorem tryPowerBands_data {st : LoopState} {m : JVal} {st2 : LoopState}
    (h : tryPowerBands st m = Except.ok st2) :
    st2.data = st.data ∧ st2.poorSigLev = st.poorSigLev ∧ st2.attention = st.attention := by
  unfold tryPowerBands at h
  repeat' split at h
  all_goals first
  | (injection h with h; subst h; simp)
  | injection h

theorem tryRaw_state {st : LoopState} {m : JVal} {st2 : LoopState}
    (h : tryRaw st m = Except.ok st2) :
    st2.data.raw_eeg = st.data.raw_eeg ++ rawFacetOfMsg m ∧
      st2.data.power_levels = st.data.power_levels ∧
      st2.poorSigLev = st.poorSigLev ∧ st2.eegPow = st.eegPow ∧
      st2.attention = st.attention := by
  unfold tryRaw at h
  unfold rawFacetOfMsg
  repeat' split at h
  all_goals first
  | (injection h with h; subst h; simp_all [add_raw_eeg])
  | injection h

theorem all_space_of_pyStrip_nil {l : List Char} (h : pyStrip l = []) :
    ∀ c ∈ l, isPySpace c = true := by
  unfold pyStrip at h
  rw [List.reverse_eq_nil_iff, List.dropWhile_eq_nil_iff] at h
  intro c hc
  rcases List.mem_append.mp
      ((List.takeWhile_append_dropWhile (p := isPySpace) (l := l)) ▸ hc) with h1 | h2
  · exact List.mem_takeWhile_imp h1
  · exact h c (List.mem_reverse.mpr h2)

theorem endsWithRBrace_false_of_pyStrip_nil {l : List Char} (h : pyStrip l = []) :
    endsWithRBrace l = false := by
  unfold endsWithRBrace
  cases hl : l.getLast? with
  | none => rfl
  | some c =>
    have hsp := all_space_of_pyStrip_nil h c (List.mem_of_mem_getLast? hl)
    simp only [isPySpace, Bool.or_eq_true, decide_eq_true_eq] at hsp
    rcases hsp with ((((rfl | rfl) | rfl) | rfl) | rfl) | rfl <;> rfl

theorem runLines_nil (st : LoopState) : runLines st [] = (st, none) := rfl

theorem runLines_cons (st : LoopState) (l : List Char) (ls : List (List Char)) :
    runLines st (l :: ls) =
      (match processLine st l with
       | Except.ok st2 => runLines st2 ls
       | Except.error e => (st, some (e, l :: ls))) := rfl

theorem processLine_raw {st : LoopState} {l : List Char} {st2 : LoopState}
    (h : processLine st l = Except.ok st2) :
    st2.data.raw_eeg = st.data.raw_eeg ++ rawFacet l := by
  unfold processLine at h
  cases hl : loads l with
  | none => rw [hl] at h; simp at h
  | some m =>
    rw [hl] at h
    dsimp only at h
    unfold rawFacet
    rw [hl]
    dsimp only
    cases h1 : tryRaw st m with
    | error e => rw [h1] at h; simp at h
    | ok sta =>
      rw [h1] at h
      dsimp only at h
      cases h2 : trySignalQuality sta m with
      | error e => rw [h2] at h; simp at h
      | ok stb =>
        rw [h2] at h
        dsimp only at h
        cases h3 : tryPowerBands stb m with
        | error e => rw [h3] at h; simp at h
        | ok stc =>
          rw [h3] at h
          dsimp only at h
          have e4 := tryESense_data_raw h
          have e3 := congrArg EegData.raw_eeg (tryPowerBands_data h3).1
          have e2 := congrArg EegData.raw_eeg (trySignalQuality_data h2).1
          have e1 := (tryRaw_state h1).1
          rw [e4, e3, e2, e1]

theorem runLines_raw (lines : List (List Char)) :
    ∀ st st' : LoopState, runLines st lines = (st', none) →
      st'.data.raw_eeg = st.data.raw_eeg ++ rawProjection lines := by
  induction lines with
  | nil =>
    intro st st' h
    rw [runLines_nil] at h
    obtain rfl : st = st' := congrArg Prod.fst h
    simp [rawProjection]
  | cons l ls ih =>
    intro st st' h
    rw [runLines_cons] at h
    cases hp : processLine st l with
    | error e => rw [hp] at h; exact absurd (congrArg Prod.snd h) (by simp)
    | ok st2 =>
      rw [hp] at h
      rw [ih st2 st' h, processLine_raw hp]
      simp [rawProjection, List.append_assoc]

theorem runLines_extend {bad : List Char} {post : List (List Char)}
    (hbad : loads bad = none) :
    ∀ (pre : List (List Char)) (st st' : LoopState),
      runLines st pre = (st', none) →
      runLines st (pre ++ bad :: post) = (st', some (PyErr.decodeError, bad :: post)) := by
  intro pre
  induction pre with
  | nil =>
    intro st st' h
    rw [runLines_nil] at h
    obtain rfl : st = st' := congrArg Prod.fst h
    rw [List.nil_append, runLines_cons]
    unfold processLine
    rw [hbad]
  | cons l ls ih =>
    intro st st' h
    rw [runLines_cons] at h
    rw [List.cons_append, runLines_cons]
    cases hp : processLine st l with
    | error e => rw [hp] at h; exact absurd (congrArg Prod.snd h) (by simp)
    | ok st2 =>
      rw [hp] at h
      exact ih st2 st' h

theorem tryESense_med_slots {st : LoopState} {fs es : List (String × JVal)} {mv : JVal}
    {st' : LoopState}
    (hes : dictGet fs "eSense" = some (JVal.obj es))
    (hatt : dictGet es "attention" = none)
    (hmed : dictGet es "meditation" = some mv)
    (h : tryESense st (JVal.obj fs) = Except.ok st') :
    st'.poorSigLev = none ∧ st'.eegPow = none ∧ st'.attention = none := by
  rw [tryESense_med hes hatt hmed] at h
  cases hcg : completeGroup st (JVal.obj fs) (JVal.obj es) with
  | error e => rw [hcg] at h; simp at h
  | ok st2 => rw [hcg] at h; injection h with h; subst h; exact ⟨rfl, rfl, rfl⟩

theorem processLine_med_slots {st st1 : LoopState} {line : List Char}
    {fs es : List (String × JVal)} {mv : JVal}
    (hload : loads line = some (JVal.obj fs))
    (hes : dictGet fs "eSense" = some (JVal.obj es))
    (hatt : dictGet es "attention" = none)
    (hmed : dictGet es "meditation" = some mv)
    (hok : processLine st line = Except.ok st1) :
    st1.poorSigLev = none ∧ st1.eegPow = none ∧ st1.attention = none := by
  unfold processLine at hok
  rw [hload] at hok
  dsimp only at hok
  cases h1 : tryRaw st (JVal.obj fs) with
  | error e => rw [h1] at hok; simp at hok
  | ok sta =>
    rw [h1] at hok
    dsimp only at hok
    cases h2 : trySignalQuality sta (JVal.obj fs) with
    | error e => rw [h2] at hok; simp at hok
    | ok stb =>
      rw [h2] at hok
      dsimp only at hok
      cases h3 : tryPowerBands stb (JVal.obj fs) with
      | error e => rw [h3] at hok; simp at hok
      | ok stc =>
        rw [h3] at hok
        dsimp only at hok
        exact tryESense_med_slots hes hatt hmed hok

theorem tryESense_slots_preserved {st : LoopState} {fs : List (String × JVal)}
    {st' : LoopState}
    (hmt : medTriggerB fs = false)
    (h : tryESense st (JVal.obj fs) = Except.ok st') :
    st'.poorSigLev = st.poorSigLev ∧ st'.eegPow = st.eegPow := by
  cases hes : dictGet fs "eSense" with
  | none => rw [tryESense_absent hes] at h; injection h with h; subst h; exact ⟨rfl, rfl⟩
  | some esv =>
    cases esv with
    | num q =>
      unfold tryESense at h
      simp [pyIn, pyGet, hes] at h
    | obj es =>
      cases hatt : dictGet es "attention" with
      | some av =>
        rw [tryESense_attention hes hatt] at h
        injection h with h
        subst h
        exact ⟨rfl, rfl⟩
      | none =>
        cases hmed : dictGet es "meditation" with
        | none =>
          rw [tryESense_noMedKey hes hatt hmed] at h
          injection h with h
          subst h
          exact ⟨rfl, rfl⟩
        | some mv =>
          exfalso
          unfold medTriggerB at hmt
          rw [hes] at hmt
          simp [hatt, hmed] at hmt

theorem split_data_eq_ref (output : List Char) :
    split_data output = split_data_ref output := by
  unfold split_data split_data_ref stripAttrEqEmptyStr
  simp

theorem split_data_spec_eq_ref (output : List Char) :
    split_data_spec output = split_data_ref output := by
  unfold split_data_spec split_data_ref
  cases he : endsWithRBrace (lastFrag (pySplit '\r' output)) with
  | false => simp [he]
  | true =>
    cases hs : pyStrip (lastFrag (pySplit '\r' output)) with
    | cons a t => simp [he, hs]
    | nil =>
      have hf := endsWithRBrace_false_of_pyStrip_nil hs
      rw [he] at hf
      cases hf

/-- C1. Group completion law: from any state whose three correlation slots
hold a signal-quality message, a power-bands message with all six
sub-fields, and an attention message, processing a meditation frame whose
timestamp equals all three buffered timestamps appends exactly one
power-levels row whose ten fields come from the four inputs, and resets
the three slots. -/
theorem group_completion_law
    (st : LoopState) (line : List Char)
    (fs1 fs2 fs3 fs es2 es3 es : List (String × JVal))
    (t p la ha lb hb lg hg av mv : JVal)
    (hsl : st.poorSigLev = some (JVal.obj fs1))
    (hpb : st.eegPow = some (JVal.obj fs2))
    (hat : st.attention = some (JVal.obj fs3))
    (hload : loads line = some (JVal.obj fs))
    (hraw : dictGet fs "rawEeg" = none)
    (hsq : dictGet fs "poorSignalLevel" = none)
    (hep : dictGet fs "eegPower" = none)
    (hes : dictGet fs "eSense" = some (JVal.obj es))
    (hatt : dictGet es "attention" = none)
    (hmed : dictGet es "meditation" = some mv)
    (ht1 : dictGet fs1 "timestamp" = some t)
    (ht2 : dictGet fs2 "timestamp" = some t)
    (ht3 : dictGet fs3 "timestamp" = some t)
    (ht4 : dictGet fs "timestamp" = some t)
    (hp : dictGet fs1 "poorSignalLevel" = some p)
    (hbands : dictGet fs2 "eegPower" = some (JVal.obj es2))
    (hla : dictGet es2 "lowAlpha" = some la)
    (hha : dictGet es2 "highAlpha" = some ha)
    (hlb : dictGet es2 "lowBeta" = some lb)
    (hhb : dictGet es2 "highBeta" = some hb)
    (hlg : dictGet es2 "lowGamma" = some lg)
    (hhg : dictGet es2 "highGamma" = some hg)
    (hesa : dictGet fs3 "eSense" = some (JVal.obj es3))
    (hava : dictGet es3 "attention" = some av) :
    processLine st line = Except.ok
      { data := { raw_eeg := st.data.raw_eeg,
                  power_levels := st.data.power_levels ++
                    [⟨t, p, la, ha, lb, hb, lg, hg, av, mv⟩] },
        poorSigLev := none, eegPow := none, attention := none } := by
  unfold processLine
  rw [hload]
  dsimp only
  rw [tryRaw_absent hraw]
  dsimp only
  rw [trySignalQuality_absent hsq]
  dsimp only
  rw [tryPowerBands_absent hep]
  dsimp only
  rw [tryESense_med hes hatt hmed]
  rw [completeGroup_full hsl hpb hat (pyTruthyV_of_dictGet ht1)
    (pyTruthyV_of_dictGet ht2) (pyTruthyV_of_dictGet ht3)]
  simp [checkAndAdd, addRow, pyGet, pyGet2, ht1, ht2, ht3, ht4, jvalBEq_refl,
    hp, hbands, hla, hha, hlb, hhb, hlg, hhg, hesa, hava, hmed, hes,
    add_power_levels]

/-- C1 witness: the example scenario state with all three slots buffered,
processing the example meditation frame, yields exactly the example row
and clears the slots. -/
theorem group_completion_law_witness :
    processLine stFull frameMed = Except.ok stAfterMed := by
  have h := group_completion_law stFull frameMed
    [("poorSignalLevel", JVal.num 0 0), ("timestamp", JVal.num 10 1)]
    [("eegPower", msgPbBands), ("timestamp", JVal.num 10 1)]
    [("eSense", JVal.obj [("attention", JVal.num 55 0)]), ("timestamp", JVal.num 10 1)]
    [("eSense", JVal.obj [("meditation", JVal.num 65 0)]), ("timestamp", JVal.num 10 1)]
    [("lowAlpha", JVal.num 10 0), ("highAlpha", JVal.num 20 0),
     ("lowBeta", JVal.num 30 0), ("highBeta", JVal.num 40 0),
     ("lowGamma", JVal.num 50 0), ("highGamma", JVal.num 60 0)]
    [("attention", JVal.num 55 0)]
    [("meditation", JVal.num 65 0)]
    (JVal.num 10 1) (JVal.num 0 0) (JVal.num 10 0) (JVal.num 20 0) (JVal.num 30 0)
    (JVal.num 40 0) (JVal.num 50 0) (JVal.num 60 0) (JVal.num 55 0) (JVal.num 65 0)
    (by rfl) (by rfl) (by rfl) (by rfl) (by rfl) (by rfl) (by rfl) (by rfl)
    (by rfl) (by rfl) (by rfl) (by rfl) (by rfl) (by rfl) (by rfl) (by rfl)
    (by rfl) (by rfl) (by rfl) (by rfl) (by rfl) (by rfl) (by rfl) (by rfl)
  exact h

/-- C2. Timestamp-mismatch law: with all three slots occupied, processing
a meditation frame whose four timestamps are not all equal (in the order
the chained assertion compares them) raises the correlation error at that
line — an error value distinct from the decode error — the loop state is
left exactly as it was (in particular no power-band row is appended), and
the remaining lines are not processed. -/
theorem timestamp_mismatch_law
    (st : LoopState) (line : List Char) (rest : List (List Char))
    (fs1 fs2 fs3 fs es : List (String × JVal))
    (t1 t2 t3 t4 mv : JVal)
    (hsl : st.poorSigLev = some (JVal.obj fs1))
    (hpb : st.eegPow = some (JVal.obj fs2))
    (hat : st.attention = some (JVal.obj fs3))
    (hload : loads line = some (JVal.obj fs))
    (hraw : dictGet fs "rawEeg" = none)
    (hsq : dictGet fs "poorSignalLevel" = none)
    (hep : dictGet fs "eegPower" = none)
    (hes : dictGet fs "eSense" = some (JVal.obj es))
    (hatt : dictGet es "attention" = none)
    (hmed : dictGet es "meditation" = some mv)
    (ht1 : dictGet fs1 "timestamp" = some t1)
    (ht2 : dictGet fs2 "timestamp" = some t2)
    (ht3 : dictGet fs3 "timestamp" = some t3)
    (ht4 : dictGet fs "timestamp" = some t4)
    (hneq : ¬(jvalBEq t1 t2 = true ∧ jvalBEq t2 t3 = true ∧ jvalBEq t3 t4 = true)) :
    runLines st (line :: rest) = (st, some (PyErr.correlationError, line :: rest)) ∧
    PyErr.correlationError ≠ PyErr.decodeError := by
  refine ⟨?_, by simp⟩
  have hpl : processLine st line = Except.error PyErr.correlationError := by
    unfold processLine
    rw [hload]
    dsimp only
    rw [tryRaw_absent hraw]
    dsimp only
    rw [trySignalQuality_absent hsq]
    dsimp only
    rw [tryPowerBands_absent hep]
    dsimp only
    rw [tryESense_med hes hatt hmed]
    rw [completeGroup_full hsl hpb hat (pyTruthyV_of_dictGet ht1)
      (pyTruthyV_of_dictGet ht2) (pyTruthyV_of_dictGet ht3)]
    unfold checkAndAdd
    by_cases h12 : jvalBEq t1 t2 = true
    · by_cases h23 : jvalBEq t2 t3 = true
      · have h34 : jvalBEq t3 t4 = false := by
          cases hb : jvalBEq t3 t4
          · rfl
          · exact absurd ⟨h12, h23, hb⟩ hneq
        simp [pyGet, ht1, ht2, ht3, ht4, h12, h23, h34]
      · simp [pyGet, ht1, ht2, ht3, h12, h23]
    · simp [pyGet, ht1, ht2, h12]
  rw [runLines_cons, hpl]

/-- C2 witness: the buffered example group (timestamps 1.0) followed by a
meditation frame with timestamp 2.0 raises the correlation error, leaves
the state untouched and processes nothing further. -/
theorem timestamp_mismatch_law_witness :
    runLines stFull [frameMedLate] =
      (stFull, some (PyErr.correlationError, [frameMedLate])) ∧
    PyErr.correlationError ≠ PyErr.decodeError :=
  timestamp_mismatch_law stFull frameMedLate []
    [("poorSignalLevel", JVal.num 0 0), ("timestamp", JVal.num 10 1)]
    [("eegPower", msgPbBands), ("timestamp", JVal.num 10 1)]
    [("eSense", JVal.obj [("attention", JVal.num 55 0)]), ("timestamp", JVal.num 10 1)]
    [("eSense", JVal.obj [("meditation", JVal.num 65 0)]), ("timestamp", JVal.num 20 1)]
    [("meditation", JVal.num 65 0)]
    (JVal.num 10 1) (JVal.num 10 1) (JVal.num 10 1) (JVal.num 20 1) (JVal.num 65 0)
    (by rfl) (by rfl) (by rfl) (by rfl) (by rfl) (by rfl) (by rfl) (by rfl)
    (by rfl) (by rfl) (by rfl) (by rfl) (by rfl) (by rfl) (by decide)

/-- C3 counterexample: with the three slots buffered and matching
timestamps, a frame whose `eSense` object carries both `attention` and
`meditation` keys is processed without error, stores itself in the
attention slot, but emits no power-band record and resets nothing — the
meditation facet is suppressed by the `elif` at line 117, although under
the claim the meditation facet would have completed the group. -/
theorem facet_independence_counterexample :
    (populate_from_data [frameSq, framePb, frameAtt, frameDual]).2 = none ∧
    (populate_from_data [frameSq, framePb, frameAtt, frameDual]).1.data.power_levels = [] ∧
    (populate_from_data [frameSq, framePb, frameAtt, frameDual]).1.attention = some msgDual ∧
    (populate_from_data [frameSq, framePb, frameAtt, frameDual]).1.poorSigLev = some msgSq :=
  ⟨rfl, rfl, rfl, rfl⟩

/-- C3 amended: recognized top-level facets are processed independently,
but inside `eSense` attention takes precedence: a frame whose `eSense`
object carries both an `attention` and a `meditation` key yields only the
attention action (the whole message overwrites the attention slot); the
meditation trigger does not fire — no record, no reset, no error. -/
theorem esense_attention_precedence
    (st : LoopState) (line : List Char) (fs es : List (String × JVal)) (av mv : JVal)
    (hload : loads line = some (JVal.obj fs))
    (hraw : dictGet fs "rawEeg" = none)
    (hsq : dictGet fs "poorSignalLevel" = none)
    (hep : dictGet fs "eegPower" = none)
    (hes : dictGet fs "eSense" = some (JVal.obj es))
    (hav : dictGet es "attention" = some av)
    (_hmv : dictGet es "meditation" = some mv) :
    processLine st line = Except.ok { st with attention := some (JVal.obj fs) } := by
  unfold processLine
  rw [hload]
  dsimp only
  rw [tryRaw_absent hraw]
  dsimp only
  rw [trySignalQuality_absent hsq]
  dsimp only
  rw [tryPowerBands_absent hep]
  dsimp only
  exact tryESense_attention hes hav

/-- C3 amended witness: the dual frame on the fully-buffered state only
replaces the attention slot. -/
theorem esense_attention_precedence_witness :
    processLine stFull frameDual = Except.ok { stFull with attention := some msgDual } :=
  esense_attention_precedence stFull frameDual
    [("eSense", JVal.obj [("attention", JVal.num 55 0), ("meditation", JVal.num 65 0)]),
     ("timestamp", JVal.num 10 1)]
    [("attention", JVal.num 55 0), ("meditation", JVal.num 65 0)]
    (JVal.num 55 0) (JVal.num 65 0)
    (by rfl) (by rfl) (by rfl) (by rfl) (by rfl) (by rfl) (by rfl)

/-- C4 counterexample: when the meditation message is rejected for a
timestamp mismatch, the assertion raises before the reset lines 138-140
run: at the moment of the error all three slots are still occupied, and
the following second meditation message is never processed at all. -/
theorem reset_law_counterexample :
    (populate_from_data [frameSq, framePb, frameAtt, frameMedLate, frameMed]).2 =
      some (PyErr.correlationError, [frameMedLate, frameMed]) ∧
    (populate_from_data [frameSq, framePb, frameAtt, frameMedLate, frameMed]).1.poorSigLev =
      some msgSq ∧
    (populate_from_data [frameSq, framePb, frameAtt, frameMedLate, frameMed]).1.eegPow =
      some msgPb ∧
    (populate_from_data [frameSq, framePb, frameAtt, frameMedLate, frameMed]).1.attention =
      some msgAtt :=
  ⟨rfl, rfl, rfl, rfl⟩

/-- C4 amended: after a meditation message that is processed without
error — group complete or incomplete — all three slots are empty, and a
second meditation frame sent immediately afterwards is processed without
error, emits no record and changes nothing; a meditation message rejected
for timestamp mismatch instead aborts processing before the reset (see
the counterexample). -/
theorem reset_after_meditation
    (st st1 : LoopState) (line : List Char) (fs es : List (String × JVal)) (mv : JVal)
    (hload : loads line = some (JVal.obj fs))
    (hes : dictGet fs "eSense" = some (JVal.obj es))
    (hatt : dictGet es "attention" = none)
    (hmed : dictGet es "meditation" = some mv)
    (hok : processLine st line = Except.ok st1) :
    (st1.poorSigLev = none ∧ st1.eegPow = none ∧ st1.attention = none) ∧
    (∀ (line2 : List Char) (fs2 es2 : List (String × JVal)) (mv2 : JVal),
      loads line2 = some (JVal.obj fs2) →
      dictGet fs2 "rawEeg" = none →
      dictGet fs2 "poorSignalLevel" = none →
      dictGet fs2 "eegPower" = none →
      dictGet fs2 "eSense" = some (JVal.obj es2) →
      dictGet es2 "attention" = none →
      dictGet es2 "meditation" = some mv2 →
      processLine st1 line2 = Except.ok st1) := by
  have hslots := processLine_med_slots hload hes hatt hmed hok
  obtain ⟨d1, s1, s2, s3⟩ := st1
  obtain ⟨hs1, hs2, hs3⟩ := hslots
  dsimp only at hs1 hs2 hs3
  subst hs1
  subst hs2
  subst hs3
  refine ⟨⟨rfl, rfl, rfl⟩, ?_⟩
  intro line2 fs2 es2 mv2 hl2 hr2 hsq2 hep2 hes2 hatt2 hmed2
  unfold processLine
  rw [hl2]
  dsimp only
  rw [tryRaw_absent hr2]
  dsimp only
  rw [trySignalQuality_absent hsq2]
  dsimp only
  rw [tryPowerBands_absent hep2]
  dsimp only
  rw [tryESense_med hes2 hatt2 hmed2]
  rw [completeGroup_emptySlot (Or.inl rfl)]

/-- C4 amended witness: the completed example group resets the slots, and
a second meditation frame immediately afterwards is a no-op. -/
theorem reset_after_meditation_witness :
    (stAfterMed.poorSigLev = none ∧ stAfterMed.eegPow = none ∧
      stAfterMed.attention = none) ∧
    processLine stAfterMed frameMed = Except.ok stAfterMed := by
  have h := reset_after_meditation stFull stAfterMed frameMed
    [("eSense", JVal.obj [("meditation", JVal.num 65 0)]), ("timestamp", JVal.num 10 1)]
    [("meditation", JVal.num 65 0)] (JVal.num 65 0)
    (by rfl) (by rfl) (by rfl) (by rfl) (by rfl)
  exact ⟨h.1, h.2 frameMed
    [("eSense", JVal.obj [("meditation", JVal.num 65 0)]), ("timestamp", JVal.num 10 1)]
    [("meditation", JVal.num 65 0)] (JVal.num 65 0)
    (by rfl) (by rfl) (by rfl) (by rfl) (by rfl) (by rfl) (by rfl)⟩

/-- C5. Frame splitting: on every input, `split_data` returns exactly the
fragments of splitting on the carriage-return delimiter, in order, with
the last fragment discarded precisely when its trimmed content is empty
or it does not end with the record-closing brace, and all earlier
fragments kept as-is — i.e. it coincides with `split_data_spec`, the
function worded exactly as the spec describes the splitter. -/
theorem frame_splitting (output : List Char) :
    split_data output = split_data_spec output :=
  (split_data_eq_ref output).trans (split_data_spec_eq_ref output).symm

/-- C6. Raw sample order preservation: whenever the loop processes a line
list without raising, the final `raw_eeg` sequence is exactly the
arrival-ordered sequence of raw-amplitude facets of the input, whatever
group completions, slot overwrites or resets happen in between. -/
theorem raw_sample_order_preservation (lines : List (List Char)) (fin : LoopState)
    (h : populate_from_data lines = (fin, none)) :
    fin.data.raw_eeg = rawProjection lines := by
  have hg := runLines_raw lines initState fin h
  simpa [initState] using hg

/-- C6 witness: two raw frames interleaved with a full power-band group
come out in arrival order, unaffected by the group completion between
them. -/
theorem raw_sample_order_preservation_witness :
    stC6.data.raw_eeg =
      rawProjection [frameRaw, frameSq, framePb, frameAtt, frameMed, frameRaw2] :=
  raw_sample_order_preservation
    [frameRaw, frameSq, framePb, frameAtt, frameMed, frameRaw2] stC6 (by rfl)

/-- C7. Decode failure is fatal: if a prefix of the input processes
cleanly and the next frame does not decode, the loop stops exactly there
with the decode error: the state is the prefix's state, the error is
surfaced (not skipped), and the malformed frame and everything after it
are left unprocessed. -/
theorem decode_failure_fatal (pre : List (List Char)) (bad : List Char)
    (post : List (List Char)) (st : LoopState)
    (hpre : populate_from_data pre = (st, none))
    (hbad : loads bad = none) :
    populate_from_data (pre ++ bad :: post) =
      (st, some (PyErr.decodeError, bad :: post)) :=
  runLines_extend hbad pre initState st hpre

/-- C7 witness: a malformed frame after the signal-quality frame aborts
the run with a decode error, leaving the attention frame after it
unprocessed. -/
theorem decode_failure_fatal_witness :
    populate_from_data ([frameSq] ++ frameBad :: [frameAtt]) =
      (stSqOnly, some (PyErr.decodeError, [frameBad, frameAtt])) :=
  decode_failure_fatal [frameSq] frameBad [frameAtt] stSqOnly (by rfl) (by rfl)

/-- C8. Example scenario: the four example frames produce exactly one
power-band record, and its TSV body line is the spec's expected line
(six-decimal timestamp and nine tab-separated integers). -/
theorem example_scenario :
    populate_from_data [frameSq, framePb, frameAtt, frameMed] = (stAfterMed, none) ∧
    stAfterMed.data.power_levels = [exampleRow] ∧
    power_levels_tsv_body stAfterMed.data =
      some ["1.000000\t0\t10\t20\t30\t40\t50\t60\t55\t65"] :=
  ⟨rfl, rfl, rfl⟩

/-- C9. Slot invariant and overwrite policy: each correlation slot holds
at most one buffered message (they are `Option`-typed single variables),
and a successfully processed frame carrying a signal-quality, power-bands
or attention facet leaves the whole message as the sole occupant of its
slot, overwriting any previous occupant; for the first two kinds the
frame must not simultaneously fire the meditation trigger, which would
clear the slots again (line 117's `elif` makes the attention case immune
to that). -/
theorem slot_overwrite_policy :
    (∀ (st fin : LoopState) (line : List Char) (fs : List (String × JVal)) (v : JVal),
      loads line = some (JVal.obj fs) →
      dictGet fs "poorSignalLevel" = some v →
      medTriggerB fs = false →
      processLine st line = Except.ok fin →
      fin.poorSigLev = some (JVal.obj fs)) ∧
    (∀ (st fin : LoopState) (line : List Char) (fs : List (String × JVal)) (v : JVal),
      loads line = some (JVal.obj fs) →
      dictGet fs "eegPower" = some v →
      medTriggerB fs = false →
      processLine st line = Except.ok fin →
      fin.eegPow = some (JVal.obj fs)) ∧
    (∀ (st fin : LoopState) (line : List Char) (fs es : List (String × JVal)) (av : JVal),
      loads line = some (JVal.obj fs) →
      dictGet fs "eSense" = some (JVal.obj es) →
      dictGet es "attention" = some av →
      processLine st line = Except.ok fin →
      fin.attention = some (JVal.obj fs)) := by
  refine ⟨?_, ?_, ?_⟩
  · intro st fin line fs v hload hkey hmt hok
    unfold processLine at hok
    rw [hload] at hok
    dsimp only at hok
    cases h1 : tryRaw st (JVal.obj fs) with
    | error e => rw [h1] at hok; simp at hok
    | ok sta =>
      rw [h1] at hok
      dsimp only at hok
      rw [trySignalQuality_present hkey] at hok
      dsimp only at hok
      cases h3 : tryPowerBands { sta with poorSigLev := some (JVal.obj fs) } (JVal.obj fs) with
      | error e => rw [h3] at hok; simp at hok
      | ok stc =>
        rw [h3] at hok
        rw [(tryESense_slots_preserved hmt hok).1, (tryPowerBands_data h3).2.1]
  · intro st fin line fs v hload hkey hmt hok
    unfold processLine at hok
    rw [hload] at hok
    dsimp only at hok
    cases h1 : tryRaw st (JVal.obj fs) with
    | error e => rw [h1] at hok; simp at hok
    | ok sta =>
      rw [h1] at hok
      dsimp only at hok
      cases h2 : trySignalQuality sta (JVal.obj fs) with
      | error e => rw [h2] at hok; simp at hok
      | ok stb =>
        rw [h2] at hok
        dsimp only at hok
        rw [tryPowerBands_present hkey] at hok
        rw [(tryESense_slots_preserved hmt hok).2]
  · intro st fin line fs es av hload hes hav hok
    unfold processLine at hok
    rw [hload] at hok
    dsimp only at hok
    cases h1 : tryRaw st (JVal.obj fs) with
    | error e => rw [h1] at hok; simp at hok
    | ok sta =>
      rw [h1] at hok
      dsimp only at hok
      cases h2 : trySignalQuality sta (JVal.obj fs) with
      | error e => rw [h2] at hok; simp at hok
      | ok stb =>
        rw [h2] at hok
        dsimp only at hok
        cases h3 : tryPowerBands stb (JVal.obj fs) with
        | error e => rw [h3] at hok; simp at hok
        | ok stc =>
          rw [h3] at hok
          dsimp only at hok
          rw [tryESense_attention hes hav] at hok
          injection hok with hok
          subst hok
          rfl

/-- C9 witness: on the fully-buffered state, a fresh frame of each of the
three kinds replaces the corresponding slot's previous occupant with the
new message. -/
theorem slot_overwrite_policy_witness :
    ({ stFull with poorSigLev := some msgSq2 } : LoopState).poorSigLev = some msgSq2 ∧
    ({ stFull with eegPow := some msgPb2 } : LoopState).eegPow = some msgPb2 ∧
    ({ stFull with attention := some msgAtt2 } : LoopState).attention = some msgAtt2 := by
  refine ⟨?_, ?_, ?_⟩
  · exact slot_overwrite_policy.1 stFull { stFull with poorSigLev := some msgSq2 }
      frameSq2 [("poorSignalLevel", JVal.num 3 0), ("timestamp", JVal.num 40 1)]
      (JVal.num 3 0) (by rfl) (by rfl) (by rfl) (by rfl)
  · exact slot_overwrite_policy.2.1 stFull { stFull with eegPow := some msgPb2 }
      framePb2
      [("eegPower",
        JVal.obj [("lowAlpha", JVal.num 11 0), ("highAlpha", JVal.num 21 0),
                  ("lowBeta", JVal.num 31 0), ("highBeta", JVal.num 41 0),
                  ("lowGamma", JVal.num 51 0), ("highGamma", JVal.num 61 0)]),
       ("timestamp", JVal.num 40 1)]
      (JVal.obj [("lowAlpha", JVal.num 11 0), ("highAlpha", JVal.num 21 0),
                 ("lowBeta", JVal.num 31 0), ("highBeta", JVal.num 41 0),
                 ("lowGamma", JVal.num 51 0), ("highGamma", JVal.num 61 0)])
      (by rfl) (by rfl) (by rfl) (by rfl)
  · exact slot_overwrite_policy.2.2 stFull { stFull with attention := some msgAtt2 }
      frameAtt2
      [("eSense", JVal.obj [("attention", JVal.num 56 0)]), ("timestamp", JVal.num 40 1)]
      [("attention", JVal.num 56 0)] (JVal.num 56 0)
      (by rfl) (by rfl) (by rfl) (by rfl)

/-- C10. Splitter refinement: `split_data` as written (with the
uninvoked-`strip` comparison, which is constantly `False`) coincides with
the simplified reference that drops the final fragment exactly when it
does not end with the closing brace; moreover even the spec-worded
splitter with the blank test actually invoked coincides with that
reference, because a fragment whose trimmed content is empty cannot end
with the closing brace — so the dead disjunct never changes the
outcome. -/
theorem splitter_refinement (output : List Char) :
    split_data output = split_data_ref output ∧
    split_data_spec output = split_data_ref output :=
  ⟨split_data_eq_ref output, split_data_spec_eq_ref output⟩
